import Mathlib

/-!
Shallow embedding of `src/model/EventMessage.ts` (event-sdk).

The module defines a validated envelope for telemetry events: a closed
category/action compatibility model (`EventType` × the per-category action
enums), trace metadata with trace-id/span-id format validation and a
`finish` lifecycle transition, event/state metadata with per-category
factory constructors, and fresh random id generators.

Modelling conventions:
- TypeScript string enums become Lean inductives together with a `toVal`
  function giving each member's runtime string value.
- A JavaScript `Date` is modelled by its only observed behaviour here,
  `toISOString`, as a structure wrapping that string; `new Date()` (the
  current clock reading) becomes an explicit `now : JSDate` argument.
- A constructor that can `throw` becomes a function into
  `Except String _`: `.error msg` is the thrown `Error`, and no partially
  initialised object is observable on the error path.
- JavaScript truthiness of a string (`if (s)`) is `s ≠ ""`; an optional
  parameter is `Option _`, with `none` for `undefined`.
-/

namespace EventSDK

/-- A JavaScript `Date` value, observed only through `toISOString()`. -/
structure JSDate where
  iso : String
deriving DecidableEq, Repr

def JSDate.toISOString (d : JSDate) : String := d.iso

/-- A TypeScript `string | Date` parameter value. -/
inductive StrOrDate where
  | str (s : String)
  | date (d : JSDate)
deriving DecidableEq, Repr

/-- JavaScript truthiness of a string: truthy iff non-empty. -/
def jsTruthy (s : String) : Bool := !(s == "")

/-- Character class `[0-9abcdef]` of `TRACE_ID_REGEX` / `SPAN_ID_REGEX`:
the range `0-9` plus the six literal characters `a b c d e f`. -/
def hexCharOk (c : Char) : Bool :=
  ('0' ≤ c && c ≤ '9') || c == 'a' || c == 'b' || c == 'c'
    || c == 'd' || c == 'e' || c == 'f'

/-- `TRACE_ID_REGEX.test s` for `/^[0-9abcdef]\x7b32\x7d$/`: anchored at both
ends (JavaScript `$` without the `m` flag matches only at end of input), so
exactly 32 characters, each in the class. -/
def TRACE_ID_REGEX_test (s : String) : Bool :=
  s.length == 32 && s.toList.all hexCharOk

/-- `SPAN_ID_REGEX.test s` for `/^[0-9abcdef]\x7b16\x7d$/`. -/
def SPAN_ID_REGEX_test (s : String) : Bool :=
  s.length == 16 && s.toList.all hexCharOk

/-- enum `EventType`. -/
inductive EventType where
  | undefined
  | log
  | audit
  | error
  | trace
deriving DecidableEq, Repr

/-- Runtime string value of each `EventType` member. -/
def EventType.toVal : EventType → String
  | .undefined => "undefined"
  | .log => "log"
  | .audit => "audit"
  | .error => "error"
  | .trace => "trace"

/-- enum `LogEventAction`. -/
inductive LogEventAction where
  | info
  | debug
  | verbose
  | perf
deriving DecidableEq, Repr

def LogEventAction.toVal : LogEventAction → String
  | .info => "info"
  | .debug => "debug"
  | .verbose => "verbose"
  | .perf => "perf"

/-- enum `AuditEventAction`. -/
inductive AuditEventAction where
  | default
deriving DecidableEq, Repr

def AuditEventAction.toVal : AuditEventAction → String
  | .default => "default"

/-- enum `ErrorEventAction`. -/
inductive ErrorEventAction where
  | internal
  | external
deriving DecidableEq, Repr

def ErrorEventAction.toVal : ErrorEventAction → String
  | .internal => "internal"
  | .external => "external"

/-- enum `TraceEventAction`. -/
inductive TraceEventAction where
  | span
deriving DecidableEq, Repr

def TraceEventAction.toVal : TraceEventAction → String
  | .span => "span"

/-- enum `NullEventAction`. -/
inductive NullEventAction where
  | undefined
deriving DecidableEq, Repr

def NullEventAction.toVal : NullEventAction → String
  | .undefined => "undefined"

/-- type `EventAction`: the union of the five action enums. -/
inductive EventAction where
  | audit (a : AuditEventAction)
  | error (a : ErrorEventAction)
  | log (a : LogEventAction)
  | trace (a : TraceEventAction)
  | null (a : NullEventAction)
deriving DecidableEq, Repr

def EventAction.toVal : EventAction → String
  | .audit a => a.toVal
  | .error a => a.toVal
  | .log a => a.toVal
  | .trace a => a.toVal
  | .null a => a.toVal

/-- class `LogEventTypeAction`: the constructor accepts exactly
`LogEventAction | NullEventAction`. -/
structure LogEventTypeAction where
  action : LogEventAction ⊕ NullEventAction
deriving DecidableEq, Repr

def LogEventTypeAction.getType (_ : LogEventTypeAction) : EventType :=
  EventType.log

/-- class `AuditEventTypeAction`. -/
structure AuditEventTypeAction where
  action : AuditEventAction ⊕ NullEventAction
deriving DecidableEq, Repr

def AuditEventTypeAction.getType (_ : AuditEventTypeAction) : EventType :=
  EventType.audit

/-- class `ErrorEventTypeAction`. -/
structure ErrorEventTypeAction where
  action : ErrorEventAction ⊕ NullEventAction
deriving DecidableEq, Repr

def ErrorEventTypeAction.getType (_ : ErrorEventTypeAction) : EventType :=
  EventType.error

/-- class `TraceEventTypeAction`. -/
structure TraceEventTypeAction where
  action : TraceEventAction ⊕ NullEventAction
deriving DecidableEq, Repr

def TraceEventTypeAction.getType (_ : TraceEventTypeAction) : EventType :=
  EventType.trace

/-- The abstract class `EventTypeAction`, as the closed union of its four
concrete subclasses. -/
inductive EventTypeAction where
  | log (v : LogEventTypeAction)
  | audit (v : AuditEventTypeAction)
  | error (v : ErrorEventTypeAction)
  | trace (v : TraceEventTypeAction)
deriving DecidableEq, Repr

/-- Virtual dispatch of `getType()` over the concrete subclasses. -/
def EventTypeAction.getType : EventTypeAction → EventType
  | .log v => v.getType
  | .audit v => v.getType
  | .error v => v.getType
  | .trace v => v.getType

/-- The `action` field read at the abstract type `EventAction` (the
subclass's `LogEventAction | NullEventAction` etc. upcast to the union). -/
def EventTypeAction.action : EventTypeAction → EventAction
  | .log v => match v.action with
    | .inl a => .log a
    | .inr a => .null a
  | .audit v => match v.action with
    | .inl a => .audit a
    | .inr a => .null a
  | .error v => match v.action with
    | .inl a => .error a
    | .inr a => .null a
  | .trace v => match v.action with
    | .inl a => .trace a
    | .inr a => .null a

/-- The legal action set of each category, as runtime string values
(`undefined` is the universal fallback, not listed here). -/
def legalActionValues : EventType → List String
  | .undefined => []
  | .log => ["info", "debug", "verbose", "perf"]
  | .audit => ["default"]
  | .error => ["internal", "external"]
  | .trace => ["span"]

/-- enum `EventStatusType`. -/
inductive EventStatusType where
  | success
  | failed
deriving DecidableEq, Repr

/-- class `EventTraceMetadata` (field state after construction). -/
structure EventTraceMetadata where
  service : String
  traceId : String
  spanId : String
  parentSpanId : Option String
  sampled : Option Int
  flags : Option Int
  startTimestamp : Option String
  finishTimestamp : Option String
deriving DecidableEq, Repr

/-- The value the constructor leaves in `startTimestamp`: the field
initialiser `(new Date()).toISOString()` unless overwritten by a `Date`
argument (normalised) or a truthy string argument. -/
def startTimestampValue (now : JSDate) (startTimestamp : Option StrOrDate) :
    String :=
  match startTimestamp with
  | some (.date d) => d.toISOString
  | some (.str s) => if jsTruthy s then s else now.toISOString
  | none => now.toISOString

/-- The guard `parentSpanId && !(SPAN_ID_REGEX.test(parentSpanId))`:
`undefined` and `""` are falsy, so only a truthy value is tested. -/
def parentSpanIdCheckFails (parentSpanId : Option String) : Bool :=
  match parentSpanId with
  | some p => jsTruthy p && !(SPAN_ID_REGEX_test p)
  | none => false

/-- `new EventTraceMetadata(service, traceId, spanId, parentSpanId?,
sampled?, flags?, startTimestamp?)`; `now` is the clock read by
`new Date()` during construction. A thrown `Error` is `.error` with the
thrown message; no object escapes on that path. -/
def EventTraceMetadata.construct (now : JSDate) (service : String)
    (traceId : String) (spanId : String) (parentSpanId : Option String)
    (sampled : Option Int) (flags : Option Int)
    (startTimestamp : Option StrOrDate) : Except String EventTraceMetadata :=
  if !(TRACE_ID_REGEX_test traceId) then
    .error ("Invalid traceId: " ++ traceId)
  else if !(SPAN_ID_REGEX_test spanId) then
    .error ("Invalid spanId: " ++ spanId)
  else if parentSpanIdCheckFails parentSpanId then
    .error ("Invalid parentSpanId: " ++ parentSpanId.getD "")
  else
    .ok { service := service
          traceId := traceId
          spanId := spanId
          parentSpanId := parentSpanId
          sampled := sampled
          flags := flags
          startTimestamp := some (startTimestampValue now startTimestamp)
          finishTimestamp := none }

/-- `finish(finishTimestamp?)`: a `Date` is normalised to ISO-8601, a falsy
argument (omitted or `""`) means "now", otherwise the string is stored as
given. Unconditionally overwrites any earlier value. -/
def EventTraceMetadata.finish (now : JSDate) (m : EventTraceMetadata)
    (finishTimestamp : Option StrOrDate) : EventTraceMetadata :=
  { m with
    finishTimestamp := some (match finishTimestamp with
      | some (.date d) => d.toISOString
      | some (.str s) => if jsTruthy s then s else now.toISOString
      | none => now.toISOString) }

/-- class `EventStateMetadata`. -/
structure EventStateMetadata where
  status : EventStatusType
  code : Option Int
  description : Option String
deriving DecidableEq, Repr

/-- class `EventMetadata` (field state after construction). -/
structure EventMetadata where
  id : String
  type : EventType
  action : EventAction
  createdAt : String
  state : EventStateMetadata
  responseTo : Option String
deriving DecidableEq, Repr

/-- The `EventMetadata` constructor: `type`/`action` are read off the
supplied `EventTypeAction`; a `Date` `createdAt` is normalised. -/
def EventMetadata.construct (id : String) (typeAction : EventTypeAction)
    (createdAt : StrOrDate) (state : EventStateMetadata)
    (responseTo : Option String) : EventMetadata :=
  { id := id
    type := typeAction.getType
    action := typeAction.action
    createdAt := match createdAt with
      | .date d => d.toISOString
      | .str s => s
    state := state
    responseTo := responseTo }

/-- static `EventMetadata.create`. -/
def EventMetadata.create (id : String) (typeAction : EventTypeAction)
    (createdAt : StrOrDate) (state : EventStateMetadata)
    (responseTo : Option String) : EventMetadata :=
  EventMetadata.construct id typeAction createdAt state responseTo

/-- static `EventMetadata.log`: builds a `LogEventTypeAction` from the
action and constructs from it. -/
def EventMetadata.log (id : String) (action : LogEventAction)
    (createdAt : StrOrDate) (state : EventStateMetadata)
    (responseTo : Option String) : EventMetadata :=
  EventMetadata.construct id (.log ⟨.inl action⟩) createdAt state responseTo

/-- static `EventMetadata.trace`. -/
def EventMetadata.trace (id : String) (action : TraceEventAction)
    (createdAt : StrOrDate) (state : EventStateMetadata)
    (responseTo : Option String) : EventMetadata :=
  EventMetadata.construct id (.trace ⟨.inl action⟩) createdAt state responseTo

/-- static `EventMetadata.audit`. -/
def EventMetadata.audit (id : String) (action : AuditEventAction)
    (createdAt : StrOrDate) (state : EventStateMetadata)
    (responseTo : Option String) : EventMetadata :=
  EventMetadata.construct id (.audit ⟨.inl action⟩) createdAt state responseTo

/-- static `EventMetadata.error`. -/
def EventMetadata.error (id : String) (action : ErrorEventAction)
    (createdAt : StrOrDate) (state : EventStateMetadata)
    (responseTo : Option String) : EventMetadata :=
  EventMetadata.construct id (.error ⟨.inl action⟩) createdAt state responseTo

/-- `Buffer.toString('hex')` digit table. -/
def hexDigits : List Char := "0123456789abcdef".toList

def hexDigit (n : Nat) : Char := hexDigits.getD n '0'

/-- One byte rendered as two lowercase hex characters. -/
def byteToHexChars (b : Nat) : List Char :=
  [hexDigit (b / 16), hexDigit (b % 16)]

/-- `buf.toString('hex')` over a byte list. -/
def bytesToHex (bs : List Nat) : String :=
  String.mk (bs.flatMap byteToHexChars)

/-- `newTraceId()`: hex-encodes `crypto.randomBytes(16)`; the random bytes
are an explicit argument. -/
def newTraceId (randomBytes : List Nat) : String := bytesToHex randomBytes

/-- `newSpanId()`: hex-encodes `crypto.randomBytes(8)`. -/
def newSpanId (randomBytes : List Nat) : String := bytesToHex randomBytes

/-- Spec-side trace-id validity, following the spec's words: `s` matches
`^[0-9a-f]\x7b32\x7d$`, i.e. exactly 32 characters, each a digit or in the
range `a`-`f`. -/
def isValidTraceId_specModel (s : String) : Bool :=
  s.length == 32 && s.toList.all (fun c => ('0' ≤ c && c ≤ '9') || ('a' ≤ c && c ≤ 'f'))

/-- Spec-side span-id validity: `s` matches `^[0-9a-f]\x7b16\x7d$`. -/
def isValidSpanId_specModel (s : String) : Bool :=
  s.length == 16 && s.toList.all (fun c => ('0' ≤ c && c ≤ '9') || ('a' ≤ c && c ≤ 'f'))

/-! ## Concrete fixtures -/

/-- A fixed clock reading used for concrete evaluations. -/
def d0 : JSDate := ⟨"2024-01-01T00:00:00.000Z"⟩

/-- A concrete valid trace id (32 lowercase hex characters). -/
def tid0 : String := "0123456789abcdef0123456789abcdef"

/-- A concrete valid span id (16 lowercase hex characters). -/
def sid0 : String := "0123456789abcdef"

/-- The object produced by `new EventTraceMetadata("svc", tid0, sid0)` at
clock `d0`. -/
def sampleTrace : EventTraceMetadata :=
  { service := "svc"
    traceId := tid0
    spanId := sid0
    parentSpanId := none
    sampled := none
    flags := none
    startTimestamp := some "2024-01-01T00:00:00.000Z"
    finishTimestamp := none }

/-- The same construction with explicit start timestamp
`"2024-01-02T00:00:00.000Z"`. -/
def sampleTraceStart : EventTraceMetadata :=
  { sampleTrace with startTimestamp := some "2024-01-02T00:00:00.000Z" }

/-! ## Helper lemmas -/

/-- A character lies in the range `'a'`-`'f'` iff it is one of the six
literal characters. -/
theorem af_range_iff (c : Char) :
    ('a' ≤ c ∧ c ≤ 'f') ↔
      (c = 'a' ∨ c = 'b' ∨ c = 'c' ∨ c = 'd' ∨ c = 'e' ∨ c = 'f') := by
  constructor
  · rintro ⟨h1, h2⟩
    rw [Char.le_def, UInt32.le_def, BitVec.le_def] at h1 h2
    have ha : ('a').val.toBitVec.toNat = 97 := rfl
    have hf : ('f').val.toBitVec.toNat = 102 := rfl
    have hcc : c.val.toBitVec.toNat = c.val.toNat := rfl
    have h3 : c.val.toNat = 97 ∨ c.val.toNat = 98 ∨ c.val.toNat = 99 ∨
        c.val.toNat = 100 ∨ c.val.toNat = 101 ∨ c.val.toNat = 102 := by omega
    have hchar : ∀ d : Char, c.val.toNat = d.val.toNat → c = d := by
      intro d hd
      apply Char.ext
      apply UInt32.ext
      exact hd
    rcases h3 with h | h | h | h | h | h
    · exact Or.inl (hchar 'a' h)
    · exact Or.inr (Or.inl (hchar 'b' h))
    · exact Or.inr (Or.inr (Or.inl (hchar 'c' h)))
    · exact Or.inr (Or.inr (Or.inr (Or.inl (hchar 'd' h))))
    · exact Or.inr (Or.inr (Or.inr (Or.inr (Or.inl (hchar 'e' h)))))
    · exact Or.inr (Or.inr (Or.inr (Or.inr (Or.inr (hchar 'f' h)))))
  · rintro (rfl | rfl | rfl | rfl | rfl | rfl) <;> exact ⟨by decide, by decide⟩

/-- The source's explicit character class `[0-9abcdef]` equals the spec's
range form `[0-9a-f]` pointwise. -/
theorem hexCharOk_eq_range (c : Char) :
    hexCharOk c = (('0' ≤ c && c ≤ '9') || ('a' ≤ c && c ≤ 'f')) := by
  rw [Bool.eq_iff_iff]
  simp only [hexCharOk, Bool.or_eq_true, Bool.and_eq_true,
    decide_eq_true_eq, beq_iff_eq]
  have haf := af_range_iff c
  tauto

end EventSDK

namespace EventSDK

/-! ## Claim theorems -/

/-- The parent-span-id guard fires exactly on a supplied, non-empty value
that fails the span-id check. -/
theorem parentSpanIdCheckFails_iff (o : Option String) :
    parentSpanIdCheckFails o = true ↔
      ∃ p, o = some p ∧ p ≠ "" ∧ SPAN_ID_REGEX_test p = false := by
  cases o with
  | none => simp [parentSpanIdCheckFails]
  | some p =>
    simp only [parentSpanIdCheckFails, jsTruthy, Bool.and_eq_true,
      Bool.not_eq_true', beq_eq_false_iff_ne, Option.some.injEq]
    constructor
    · rintro ⟨h1, h2⟩
      exact ⟨p, rfl, h1, h2⟩
    · rintro ⟨q, rfl, h1, h2⟩
      exact ⟨h1, h2⟩

/-- Whenever the constructor returns an object, that object is exactly the
record the success path builds. -/
theorem construct_ok_fields (now : JSDate) (service traceId spanId : String)
    (parentSpanId : Option String) (sampled flags : Option Int)
    (startTimestamp : Option StrOrDate) (m : EventTraceMetadata)
    (hm : EventTraceMetadata.construct now service traceId spanId parentSpanId
        sampled flags startTimestamp = .ok m) :
    m = { service := service
          traceId := traceId
          spanId := spanId
          parentSpanId := parentSpanId
          sampled := sampled
          flags := flags
          startTimestamp := some (startTimestampValue now startTimestamp)
          finishTimestamp := none } := by
  unfold EventTraceMetadata.construct at hm
  split at hm
  · exact absurd hm (by simp)
  · split at hm
    · exact absurd hm (by simp)
    · split at hm
      · exact absurd hm (by simp)
      · injection hm with h
        exact h.symm

/-- Every hex digit produced by the encoding table is in the id character
class. -/
theorem hexCharOk_hexDigit (n : Nat) (h : n < 16) :
    hexCharOk (hexDigit n) = true := by
  interval_cases n <;> decide

/-- Hex encoding yields two characters per byte. -/
theorem bytesToHex_length (bs : List Nat) :
    (bytesToHex bs).length = 2 * bs.length := by
  show (bs.flatMap byteToHexChars).length = 2 * bs.length
  induction bs with
  | nil => rfl
  | cons b bs ih =>
    rw [List.flatMap_cons, List.length_append, ih]
    simp [byteToHexChars]
    omega

/-- Hex encoding of bytes yields only characters in the id character
class. -/
theorem bytesToHex_chars (bs : List Nat) (hb : ∀ b ∈ bs, b < 256) :
    (bytesToHex bs).toList.all hexCharOk = true := by
  show (bs.flatMap byteToHexChars).all hexCharOk = true
  rw [List.all_eq_true]
  intro c hc
  rw [List.mem_flatMap] at hc
  obtain ⟨b, hbmem, hcmem⟩ := hc
  have hb256 := hb b hbmem
  have hdiv : b / 16 < 16 := by
    rw [Nat.div_lt_iff_lt_mul (by norm_num)]
    omega
  have hmod : b % 16 < 16 := Nat.mod_lt _ (by norm_num)
  simp only [byteToHexChars, List.mem_cons, List.mem_singleton,
    List.not_mem_nil, or_false] at hcmem
  rcases hcmem with rfl | rfl
  · exact hexCharOk_hexDigit _ hdiv
  · exact hexCharOk_hexDigit _ hmod

/-- C3: the trace-id check used by the module accepts a string iff it
matches `^[0-9a-f]\x7b32\x7d$` (exactly 32 lowercase hex characters), and the
span-id check accepts a string iff it matches `^[0-9a-f]\x7b16\x7d$` (exactly
16 lowercase hex characters). -/
theorem validity_checks_match_spec_regex (s : String) :
    TRACE_ID_REGEX_test s = isValidTraceId_specModel s
    ∧ SPAN_ID_REGEX_test s = isValidSpanId_specModel s := by
  have hfun : hexCharOk
      = fun c => (('0' ≤ c && c ≤ '9') || ('a' ≤ c && c ≤ 'f')) :=
    funext hexCharOk_eq_range
  constructor <;>
    simp only [TRACE_ID_REGEX_test, SPAN_ID_REGEX_test,
      isValidTraceId_specModel, isValidSpanId_specModel, hfun]

/-- C1: every constructible category/action variant (`LogEventTypeAction`,
`AuditEventTypeAction`, `ErrorEventTypeAction`, `TraceEventTypeAction`)
carries an action value in its declared category's legal action set
(log: info/debug/verbose/perf; audit: default; error: internal/external;
trace: span) or the universal undefined action; and for every category and
every action in its legal set, constructing the variant with that action
succeeds, stores the action, and `getType()` returns the category. -/
theorem eventTypeAction_compatibility :
    (∀ ta : EventTypeAction,
        ta.action.toVal = "undefined"
          ∨ ta.action.toVal ∈ legalActionValues ta.getType)
    ∧ (∀ a : LogEventAction,
        (EventTypeAction.log ⟨Sum.inl a⟩).getType = EventType.log
          ∧ (EventTypeAction.log ⟨Sum.inl a⟩).action = EventAction.log a
          ∧ a.toVal ∈ legalActionValues EventType.log)
    ∧ (∀ a : AuditEventAction,
        (EventTypeAction.audit ⟨Sum.inl a⟩).getType = EventType.audit
          ∧ (EventTypeAction.audit ⟨Sum.inl a⟩).action = EventAction.audit a
          ∧ a.toVal ∈ legalActionValues EventType.audit)
    ∧ (∀ a : ErrorEventAction,
        (EventTypeAction.error ⟨Sum.inl a⟩).getType = EventType.error
          ∧ (EventTypeAction.error ⟨Sum.inl a⟩).action = EventAction.error a
          ∧ a.toVal ∈ legalActionValues EventType.error)
    ∧ (∀ a : TraceEventAction,
        (EventTypeAction.trace ⟨Sum.inl a⟩).getType = EventType.trace
          ∧ (EventTypeAction.trace ⟨Sum.inl a⟩).action = EventAction.trace a
          ∧ a.toVal ∈ legalActionValues EventType.trace) := by
  refine ⟨?_, ?_, ?_, ?_, ?_⟩
  · intro ta
    rcases ta with ⟨a | a⟩ | ⟨a | a⟩ | ⟨a | a⟩ | ⟨a | a⟩ <;> cases a <;> decide
  all_goals intro a; cases a <;> exact ⟨rfl, rfl, by decide⟩

/-- C6: `EventMetadata.log(id, "debug", createdAt, state)` yields an
`EventMetadata` with category `"log"` and action `"debug"`; and each
per-category factory (`log`, `audit`, `error`, `trace`, `create`) returns an
`EventMetadata` whose `type`/`action` fields are exactly those of the
`EventTypeAction` variant it builds from its arguments. -/
theorem eventMetadata_factories_category_action
    (id : String) (createdAt : StrOrDate) (state : EventStateMetadata)
    (responseTo : Option String) :
    ((EventMetadata.log id .debug createdAt state responseTo).type.toVal = "log"
      ∧ (EventMetadata.log id .debug createdAt state responseTo).action.toVal
          = "debug")
    ∧ (∀ a : LogEventAction,
        (EventMetadata.log id a createdAt state responseTo).type = EventType.log
          ∧ (EventMetadata.log id a createdAt state responseTo).action
              = EventAction.log a)
    ∧ (∀ a : AuditEventAction,
        (EventMetadata.audit id a createdAt state responseTo).type
            = EventType.audit
          ∧ (EventMetadata.audit id a createdAt state responseTo).action
              = EventAction.audit a)
    ∧ (∀ a : ErrorEventAction,
        (EventMetadata.error id a createdAt state responseTo).type
            = EventType.error
          ∧ (EventMetadata.error id a createdAt state responseTo).action
              = EventAction.error a)
    ∧ (∀ a : TraceEventAction,
        (EventMetadata.trace id a createdAt state responseTo).type
            = EventType.trace
          ∧ (EventMetadata.trace id a createdAt state responseTo).action
              = EventAction.trace a)
    ∧ (∀ ta : EventTypeAction,
        (EventMetadata.create id ta createdAt state responseTo).type
            = ta.getType
          ∧ (EventMetadata.create id ta createdAt state responseTo).action
              = ta.action) :=
  ⟨⟨rfl, rfl⟩, fun _ => ⟨rfl, rfl⟩, fun _ => ⟨rfl, rfl⟩, fun _ => ⟨rfl, rfl⟩,
    fun _ => ⟨rfl, rfl⟩, fun _ => ⟨rfl, rfl⟩⟩

/-- C2 counterexample: with a valid traceId and spanId and with
`parentSpanId = ""` — a present value that fails the span-id check — the
constructor nevertheless succeeds, so construction does not fail whenever a
present `parentSpanId` fails the check. -/
theorem construct_presentEmptyParent_counterexample :
    (EventTraceMetadata.construct d0 "svc" tid0 sid0 (some "") none none
        none).isOk = true
    ∧ SPAN_ID_REGEX_test "" = false := ⟨rfl, rfl⟩

/-- C2 (amended): construction fails iff `traceId` fails the trace-id check,
or `spanId` fails the span-id check, or a present non-empty `parentSpanId`
fails the span-id check (a present but empty `parentSpanId` is skipped by
the guard); no object is produced on failure (the result is an `Error`
value, not a partial object), and on success the stored fields equal the
inputs exactly. -/
theorem construct_failure_iff (now : JSDate) (service traceId spanId : String)
    (parentSpanId : Option String) (sampled flags : Option Int)
    (ts : Option StrOrDate) :
    ((EventTraceMetadata.construct now service traceId spanId parentSpanId
          sampled flags ts).isOk = false ↔
        TRACE_ID_REGEX_test traceId = false
          ∨ SPAN_ID_REGEX_test spanId = false
          ∨ (∃ p, parentSpanId = some p ∧ p ≠ ""
              ∧ SPAN_ID_REGEX_test p = false))
    ∧ (∀ m, EventTraceMetadata.construct now service traceId spanId
          parentSpanId sampled flags ts = .ok m →
        m.service = service ∧ m.traceId = traceId ∧ m.spanId = spanId
          ∧ m.parentSpanId = parentSpanId) := by
  constructor
  · rw [← parentSpanIdCheckFails_iff]
    unfold EventTraceMetadata.construct
    cases ht : TRACE_ID_REGEX_test traceId <;>
      cases hs : SPAN_ID_REGEX_test spanId <;>
      cases hp : parentSpanIdCheckFails parentSpanId <;>
      simp [Except.isOk, Except.toBool]
  · intro m hm
    rw [construct_ok_fields now service traceId spanId parentSpanId sampled
      flags ts m hm]
    exact ⟨rfl, rfl, rfl, rfl⟩

/-- C2 witness: on a concrete successful construction the stored fields
equal the inputs. -/
theorem construct_failure_iff_witness :
    sampleTrace.service = "svc" ∧ sampleTrace.traceId = tid0
      ∧ sampleTrace.spanId = sid0 ∧ sampleTrace.parentSpanId = none :=
  (construct_failure_iff d0 "svc" tid0 sid0 none none none none).2
    sampleTrace rfl

/-- C4 counterexample: calling `finish` with the explicit string `""` sets
`finishTimestamp` to the current time, not to that string. -/
theorem finish_emptyString_counterexample :
    (EventTraceMetadata.finish d0 sampleTrace
        (some (.str ""))).finishTimestamp = some "2024-01-01T00:00:00.000Z"
    ∧ (EventTraceMetadata.finish d0 sampleTrace
        (some (.str ""))).finishTimestamp ≠ some "" := ⟨rfl, by decide⟩

/-- C4 (amended): `finish` with no argument sets `finishTimestamp` to the
current time in ISO-8601 form; with an explicit non-empty string it sets
exactly that value (the empty string falls back to the current time); a
`Date` value is normalised to ISO-8601; and finishing twice leaves exactly
the state of the second call (last write wins, no guard). -/
theorem finish_spec (now : JSDate) (m : EventTraceMetadata) :
    (EventTraceMetadata.finish now m none).finishTimestamp
        = some now.toISOString
    ∧ (∀ s : String, s ≠ "" →
        (EventTraceMetadata.finish now m (some (.str s))).finishTimestamp
          = some s)
    ∧ (∀ d : JSDate,
        (EventTraceMetadata.finish now m (some (.date d))).finishTimestamp
          = some d.toISOString)
    ∧ (∀ (now1 : JSDate) (a1 a2 : Option StrOrDate),
        EventTraceMetadata.finish now (EventTraceMetadata.finish now1 m a1) a2
          = EventTraceMetadata.finish now m a2) := by
  refine ⟨rfl, ?_, fun d => rfl, fun now1 a1 a2 => rfl⟩
  intro s hs
  have hb : (s == "") = false := beq_eq_false_iff_ne.mpr hs
  simp [EventTraceMetadata.finish, jsTruthy, hb]

/-- C4 witness: finishing with a concrete non-empty timestamp stores it
exactly. -/
theorem finish_spec_witness :
    ("2024-01-02T00:00:00.000Z" : String) ≠ ""
    ∧ (EventTraceMetadata.finish d0 sampleTrace
        (some (.str "2024-01-02T00:00:00.000Z"))).finishTimestamp
        = some "2024-01-02T00:00:00.000Z" :=
  ⟨by decide, (finish_spec d0 sampleTrace).2.1 "2024-01-02T00:00:00.000Z"
    (by decide)⟩

/-- C5 counterexample: supplying the explicit startTimestamp string `""`
succeeds but stores the construction-time default, not the supplied
string. -/
theorem construct_emptyStart_counterexample :
    (EventTraceMetadata.construct d0 "svc" tid0 sid0 none none none
        (some (.str ""))).map (fun m => m.startTimestamp)
      = .ok (some "2024-01-01T00:00:00.000Z")
    ∧ some "2024-01-01T00:00:00.000Z" ≠ some ("" : String) :=
  ⟨rfl, by decide⟩

/-- C5 (amended): on every successful construction, an omitted
startTimestamp yields the construction-time current time in ISO-8601 form;
an explicit non-empty string is stored exactly (the empty string falls back
to the default); a `Date` argument is normalised to its ISO-8601 string. -/
theorem construct_startTimestamp_spec (now : JSDate)
    (service traceId spanId : String) (parentSpanId : Option String)
    (sampled flags : Option Int) :
    (∀ m, EventTraceMetadata.construct now service traceId spanId parentSpanId
          sampled flags none = .ok m →
        m.startTimestamp = some now.toISOString)
    ∧ (∀ (s : String) m, s ≠ "" →
        EventTraceMetadata.construct now service traceId spanId parentSpanId
          sampled flags (some (.str s)) = .ok m →
        m.startTimestamp = some s)
    ∧ (∀ (d : JSDate) m,
        EventTraceMetadata.construct now service traceId spanId parentSpanId
          sampled flags (some (.date d)) = .ok m →
        m.startTimestamp = some d.toISOString) := by
  refine ⟨?_, ?_, ?_⟩
  · intro m hm
    rw [construct_ok_fields now service traceId spanId parentSpanId sampled
      flags none m hm]
    rfl
  · intro s m hs hm
    rw [construct_ok_fields now service traceId spanId parentSpanId sampled
      flags (some (.str s)) m hm]
    have hb : (s == "") = false := beq_eq_false_iff_ne.mpr hs
    simp [startTimestampValue, jsTruthy, hb]
  · intro d m hm
    rw [construct_ok_fields now service traceId spanId parentSpanId sampled
      flags (some (.date d)) m hm]
    rfl

/-- C5 witness: a concrete explicit non-empty startTimestamp is reproduced
exactly. -/
theorem construct_startTimestamp_spec_witness :
    ("2024-01-02T00:00:00.000Z" : String) ≠ ""
    ∧ sampleTraceStart.startTimestamp = some "2024-01-02T00:00:00.000Z" :=
  ⟨by decide,
    (construct_startTimestamp_spec d0 "svc" tid0 sid0 none none none).2.1
      "2024-01-02T00:00:00.000Z" sampleTraceStart (by decide) rfl⟩

/-- C7: hex-encoding any 16 bytes yields a string passing the trace-id
check, and hex-encoding any 8 bytes yields a string passing the span-id
check, for every value of the underlying random bytes. -/
theorem newTraceId_newSpanId_always_valid (tbs sbs : List Nat)
    (ht : tbs.length = 16) (hs : sbs.length = 8)
    (htb : ∀ b ∈ tbs, b < 256) (hsb : ∀ b ∈ sbs, b < 256) :
    TRACE_ID_REGEX_test (newTraceId tbs) = true
    ∧ SPAN_ID_REGEX_test (newSpanId sbs) = true := by
  constructor
  · unfold TRACE_ID_REGEX_test newTraceId
    rw [Bool.and_eq_true, beq_iff_eq, bytesToHex_length, ht]
    exact ⟨rfl, bytesToHex_chars tbs htb⟩
  · unfold SPAN_ID_REGEX_test newSpanId
    rw [Bool.and_eq_true, beq_iff_eq, bytesToHex_length, hs]
    exact ⟨rfl, bytesToHex_chars sbs hsb⟩

/-- C7 witness: concrete all-zero byte buffers produce valid ids. -/
theorem newTraceId_newSpanId_always_valid_witness :
    TRACE_ID_REGEX_test (newTraceId (List.replicate 16 0)) = true
    ∧ SPAN_ID_REGEX_test (newSpanId (List.replicate 8 0)) = true :=
  newTraceId_newSpanId_always_valid (List.replicate 16 0)
    (List.replicate 8 0) (by decide) (by decide) (by decide) (by decide)

/-- C8 counterexample: constructing with an empty service string succeeds
and stores `service = ""`, so a successfully constructed instance need not
have a non-empty service. -/
theorem construct_emptyService_counterexample :
    (EventTraceMetadata.construct d0 "" tid0 sid0 none none none none).map
        (fun m => m.service) = .ok "" := rfl

/-- C8 (amended): the constructor does not validate `service`: on every
successful construction the stored service equals the supplied argument,
whatever string it is (including the empty string). -/
theorem construct_service_unchecked (now : JSDate)
    (service traceId spanId : String) (parentSpanId : Option String)
    (sampled flags : Option Int) (ts : Option StrOrDate) :
    ∀ m, EventTraceMetadata.construct now service traceId spanId parentSpanId
        sampled flags ts = .ok m → m.service = service := by
  intro m hm
  rw [construct_ok_fields now service traceId spanId parentSpanId sampled
    flags ts m hm]

/-- C8 witness: the concrete construction stores its service argument. -/
theorem construct_service_unchecked_witness : sampleTrace.service = "svc" :=
  construct_service_unchecked d0 "svc" tid0 sid0 none none none none
    sampleTrace rfl

/-- C9: with a valid traceId and spanId, constructing with
`parentSpanId = ""` succeeds and stores the empty string, even though the
empty string fails the span-id check (the guard skips falsy values). -/
theorem construct_emptyParentSpanId_accepted (now : JSDate)
    (service traceId spanId : String) (sampled flags : Option Int)
    (ts : Option StrOrDate) (ht : TRACE_ID_REGEX_test traceId = true)
    (hs : SPAN_ID_REGEX_test spanId = true) :
    SPAN_ID_REGEX_test "" = false
    ∧ ∃ m, EventTraceMetadata.construct now service traceId spanId (some "")
          sampled flags ts = .ok m
        ∧ m.parentSpanId = some "" := by
  refine ⟨rfl, ?_⟩
  have hp : parentSpanIdCheckFails (some "") = false := rfl
  unfold EventTraceMetadata.construct
  rw [ht, hs, hp]
  exact ⟨_, rfl, rfl⟩

/-- C9 witness: the concrete construction with empty parentSpanId
succeeds. -/
theorem construct_emptyParentSpanId_accepted_witness :
    SPAN_ID_REGEX_test "" = false
    ∧ ∃ m, EventTraceMetadata.construct d0 "svc" tid0 sid0 (some "") none
          none none = .ok m
        ∧ m.parentSpanId = some "" :=
  construct_emptyParentSpanId_accepted d0 "svc" tid0 sid0 none none none
    (by decide) (by decide)

/-- C10: empty-string timestamp arguments behave as if omitted: constructing
with startTimestamp `""` is identical to constructing without one (leaving
the construction-time default), and `finish("")` is identical to `finish()`
(setting the current time). -/
theorem emptyString_timestamps_default (now : JSDate)
    (service traceId spanId : String) (parentSpanId : Option String)
    (sampled flags : Option Int) (m : EventTraceMetadata) :
    (EventTraceMetadata.construct now service traceId spanId parentSpanId
        sampled flags (some (.str ""))
      = EventTraceMetadata.construct now service traceId spanId parentSpanId
          sampled flags none)
    ∧ (EventTraceMetadata.construct now service traceId spanId parentSpanId
          sampled flags (some (.str "")) = .ok m →
        m.startTimestamp = some now.toISOString)
    ∧ (EventTraceMetadata.finish now m (some (.str ""))
        = EventTraceMetadata.finish now m none)
    ∧ (EventTraceMetadata.finish now m (some (.str ""))).finishTimestamp
        = some now.toISOString := by
  refine ⟨rfl, ?_, rfl, rfl⟩
  intro hm
  rw [construct_ok_fields now service traceId spanId parentSpanId sampled
    flags (some (.str "")) m hm]
  rfl

/-- C10 witness: the concrete construction with startTimestamp `""` stores
the clock default. -/
theorem emptyString_timestamps_default_witness :
    sampleTrace.startTimestamp = some "2024-01-01T00:00:00.000Z" :=
  (emptyString_timestamps_default d0 "svc" tid0 sid0 none none none
    sampleTrace).2.1 rfl

end EventSDK
